import Mathlib

/-!
Verification of the webhook delivery and retry core of the invoice backend
(src/backend/server.js). The persisted store is modelled as a list of invoice
rows; the effectful parts of a delivery attempt (the artifact read, the
outbound HTTP call, the two UPDATE queries) are driven by an explicit
environment describing which of them succeed.
-/

namespace InvoicePipeline

/-- One row of the client_smd.backend table, restricted to the fields the
webhook core reads and writes. SQL NULLs are modelled with Option. -/
structure Invoice where
  id : String
  phonenumber : String
  dealer : String
  total : Int
  status : Option String
  pdf_url : Option String
  webhook_status : Option String
  webhook_attempts : Option Nat
deriving DecidableEq

/-- The JSON body of the outbound axios.post call in sendWebhook
(server.js lines 129-138), without the wall-clock timestamp field. -/
structure WebhookPayload where
  event : String
  invoice_id : String
  phone : String
  pdf_url : Option String
  pdf_base64 : Option String
  total : Int
  dealer : String
deriving DecidableEq

/-- Outcomes of the effectful steps inside one sendWebhook call:
resolveArtifact is the base64 content of the referenced PDF when the file
exists and is readable (none covers both a missing file and a read error,
which the inner try/catch absorbs); httpOk is whether axios.post resolves
with a success response; dbSentOk and dbFailedOk are whether the UPDATE
query of the success branch, respectively of the catch branch, succeeds. -/
structure WebhookEnv where
  resolveArtifact : Option String
  httpOk : Bool
  dbSentOk : Bool
  dbFailedOk : Bool
deriving DecidableEq

/-- Returned value of sendWebhook: ok b when the promise resolves with the
boolean b, threw when the promise rejects. -/
inductive SendResult where
  | ok (b : Bool)
  | threw
deriving DecidableEq

/-- UPDATE client_smd.backend SET webhook_status = SENT WHERE id = i
(server.js lines 140-143). -/
def updateSent (i : String) (db : List Invoice) : List Invoice :=
  db.map fun row =>
    if row.id = i then { row with webhook_status := some "SENT" } else row

/-- UPDATE client_smd.backend SET webhook_status = FAILED,
webhook_attempts = COALESCE(webhook_attempts, 0) + 1 WHERE id = i
(server.js lines 148-151). -/
def updateFailed (i : String) (db : List Invoice) : List Invoice :=
  db.map fun row =>
    if row.id = i then
      { row with webhook_status := some "FAILED",
                 webhook_attempts := some (row.webhook_attempts.getD 0 + 1) }
    else row

/-- The body built for the outbound call (server.js lines 114-138): when the
invoice has a truthy pdf_url the file content is attached as base64 when it
can be read, and pdf_base64 stays null otherwise. -/
def buildPayload (env : WebhookEnv) (inv : Invoice) : WebhookPayload :=
  let pdfBase64 : Option String :=
    match inv.pdf_url with
    | none => none
    | some u => if u = "" then none else env.resolveArtifact
  { event := "invoice_approved"
    invoice_id := inv.id
    phone := inv.phonenumber
    pdf_url := inv.pdf_url
    pdf_base64 := pdfBase64
    total := inv.total
    dealer := inv.dealer }

/-- Observable outcome of one sendWebhook call: the payload posted to the
destination when an HTTP call was attempted, the store after the call, and
the value the caller sees. -/
structure SendOutcome where
  payloadSent : Option WebhookPayload
  db : List Invoice
  result : SendResult
deriving DecidableEq

/-- sendWebhook (server.js lines 107-154). With no WEBHOOK_URL configured it
returns false at once, with no HTTP call and no store write. Otherwise it
posts the payload; on a successful post it runs the SENT update and returns
true, and every throw inside the try block (a failed post, or a failed SENT
update) lands in the catch block, which runs the FAILED update and returns
false. A throw of the FAILED update itself escapes to the caller. -/
def sendWebhook (url : Option String) (env : WebhookEnv) (inv : Invoice)
    (db : List Invoice) : SendOutcome :=
  match url with
  | none => { payloadSent := none, db := db, result := SendResult.ok false }
  | some _ =>
    let payload := buildPayload env inv
    if env.httpOk then
      if env.dbSentOk then
        { payloadSent := some payload
          db := updateSent inv.id db
          result := SendResult.ok true }
      else if env.dbFailedOk then
        { payloadSent := some payload
          db := updateFailed inv.id db
          result := SendResult.ok false }
      else
        { payloadSent := some payload, db := db, result := SendResult.threw }
    else if env.dbFailedOk then
      { payloadSent := some payload
        db := updateFailed inv.id db
        result := SendResult.ok false }
    else
      { payloadSent := some payload, db := db, result := SendResult.threw }

/-- The WHERE clause of the retry query (server.js lines 162-167):
status = APPROVED, webhook_status FAILED or PENDING, and webhook_attempts
NULL or below 10. -/
def eligible (inv : Invoice) : Bool :=
  inv.status == some "APPROVED" &&
  (inv.webhook_status == some "FAILED" || inv.webhook_status == some "PENDING") &&
  (match inv.webhook_attempts with
   | none => true
   | some a => decide (a < 10))

/-- The retry query with its LIMIT 10 (server.js lines 162-168). -/
def retryQuery (db : List Invoice) : List Invoice :=
  (db.filter eligible).take 10

/-- Observable outcome of one tick of the 60 second retry job: whether the
candidate query ran, the store after the tick, and the candidate rows for
which sendWebhook was invoked. -/
structure TickResult where
  queried : Bool
  db : List Invoice
  processed : List Invoice
deriving DecidableEq

/-- The for-loop over the fetched candidates (server.js lines 170-175):
sendWebhook runs for each row sequentially, and a rejection of one awaited
call jumps to the outer catch of the tick, so the remaining candidates of
the batch are not processed. Returns the store after the loop and the rows
for which sendWebhook was invoked; tenv gives the environment of the
attempt for each invoice id. -/
def runBatch (u : String) (tenv : String → WebhookEnv) :
    List Invoice → List Invoice → List Invoice × List Invoice
  | [], db => (db, [])
  | inv :: rest, db =>
    let o := sendWebhook (some u) (tenv inv.id) inv db
    match o.result with
    | SendResult.threw => (o.db, [inv])
    | SendResult.ok _ =>
      let r := runBatch u tenv rest o.db
      (r.1, inv :: r.2)

/-- One tick of the retry job (server.js lines 158-179). With no WEBHOOK_URL
configured the tick returns before querying. Otherwise the candidate rows
are fetched and processed sequentially, the batch aborting into the outer
catch when an awaited sendWebhook call rejects. -/
def runTick (url : Option String) (tenv : String → WebhookEnv)
    (db : List Invoice) : TickResult :=
  match url with
  | none => { queried := false, db := db, processed := [] }
  | some u =>
    let sel := retryQuery db
    let r := runBatch u tenv sel db
    { queried := true
      db := r.1
      processed := r.2 }

/-- The SET clause of the approval update (server.js lines 429-438). -/
def approveUpdate (total : Int) (pdfUrl : String) (inv : Invoice) : Invoice :=
  { inv with status := some "APPROVED"
             total := total
             pdf_url := some pdfUrl
             webhook_status := some "PENDING"
             webhook_attempts := some 0 }

/-- The full approval UPDATE: rows matching the id and phonenumber of the
route parameters receive the SET clause (server.js lines 429-438). -/
def approveRoute (i phone : String) (total : Int) (pdfUrl : String)
    (db : List Invoice) : List Invoice :=
  db.map fun row =>
    if row.id = i && row.phonenumber = phone then approveUpdate total pdfUrl row
    else row

/-- Reading the row at position i of the store after the SENT update. -/
theorem updateSent_getElem (x : String) (db : List Invoice) (i : Nat)
    (row : Invoice) (hrow : db[i]? = some row) (hid : row.id = x) :
    (updateSent x db)[i]? = some { row with webhook_status := some "SENT" } := by
  simp [updateSent, List.getElem?_map, hrow, hid]

/-- Reading the row at position i of the store after the FAILED update. -/
theorem updateFailed_getElem (x : String) (db : List Invoice) (i : Nat)
    (row : Invoice) (hrow : db[i]? = some row) (hid : row.id = x) :
    (updateFailed x db)[i]? =
      some { row with webhook_status := some "FAILED",
                      webhook_attempts := some (row.webhook_attempts.getD 0 + 1) } := by
  simp [updateFailed, List.getElem?_map, hrow, hid]

/-- Sample row: an approved invoice pending delivery, attempts NULL. -/
def cInv : Invoice :=
  { id := "a", phonenumber := "9", dealer := "d", total := 5,
    status := some "APPROVED", pdf_url := none,
    webhook_status := some "PENDING", webhook_attempts := none }

/-- Sample store holding the one sample row. -/
def cDb : List Invoice := [cInv]

/-- Environment in which every effect succeeds. -/
def envAllOk : WebhookEnv :=
  { resolveArtifact := none, httpOk := true, dbSentOk := true, dbFailedOk := true }

/-- Environment in which the outbound post fails and the UPDATE queries
succeed. -/
def envHttpFail : WebhookEnv :=
  { resolveArtifact := none, httpOk := false, dbSentOk := true, dbFailedOk := true }

/-- Claim C1: when a destination is configured, a delivery attempt that
returns success leaves the row SENT with its attempts counter untouched,
and one that returns failure leaves the row FAILED with the counter
incremented by exactly 1, a NULL counter counting as 0. -/
theorem delivery_outcome_sets_row (u : String) (env : WebhookEnv) (inv : Invoice)
    (db : List Invoice) (i : Nat) (row : Invoice)
    (hrow : db[i]? = some row) (hid : row.id = inv.id) :
    ((sendWebhook (some u) env inv db).result = SendResult.ok true →
      (sendWebhook (some u) env inv db).db[i]? =
        some { row with webhook_status := some "SENT" }) ∧
    ((sendWebhook (some u) env inv db).result = SendResult.ok false →
      (sendWebhook (some u) env inv db).db[i]? =
        some { row with webhook_status := some "FAILED",
                        webhook_attempts := some (row.webhook_attempts.getD 0 + 1) }) := by
  cases h1 : env.httpOk <;> cases h2 : env.dbSentOk <;> cases h3 : env.dbFailedOk <;>
    simp [sendWebhook, h1, h2, h3,
      updateSent_getElem inv.id db i row hrow hid,
      updateFailed_getElem inv.id db i row hrow hid]

/-- Witness for claim C1 at a concrete invoice and store. -/
theorem delivery_outcome_sets_row_witness :
    cDb[0]? = some cInv ∧ cInv.id = cInv.id ∧
    (((sendWebhook (some "http://x") envAllOk cInv cDb).result = SendResult.ok true →
       (sendWebhook (some "http://x") envAllOk cInv cDb).db[0]? =
         some { cInv with webhook_status := some "SENT" }) ∧
     ((sendWebhook (some "http://x") envAllOk cInv cDb).result = SendResult.ok false →
       (sendWebhook (some "http://x") envAllOk cInv cDb).db[0]? =
         some { cInv with webhook_status := some "FAILED",
                          webhook_attempts := some (cInv.webhook_attempts.getD 0 + 1) })) :=
  ⟨by decide, rfl,
    delivery_outcome_sets_row "http://x" envAllOk cInv cDb 0 cInv (by decide) rfl⟩

/-- Claim C2: a row selected by the retry query has status APPROVED,
webhook_status FAILED or PENDING, and webhook_attempts NULL or below 10, so
no row with another status and no row with 10 or more attempts is ever
selected. -/
theorem retryQuery_only_eligible (db : List Invoice) (inv : Invoice)
    (h : inv ∈ retryQuery db) :
    inv.status = some "APPROVED" ∧
    (inv.webhook_status = some "FAILED" ∨ inv.webhook_status = some "PENDING") ∧
    (inv.webhook_attempts = none ∨ ∃ a, inv.webhook_attempts = some a ∧ a < 10) := by
  have hmem : inv ∈ db.filter eligible := List.mem_of_mem_take h
  have hel : eligible inv = true := (List.mem_filter.mp hmem).2
  cases hatt : inv.webhook_attempts with
  | none =>
    simp [eligible, hatt] at hel
    exact ⟨hel.1, hel.2, Or.inl rfl⟩
  | some a =>
    simp [eligible, hatt] at hel
    exact ⟨hel.1.1, hel.1.2, Or.inr ⟨a, rfl, hel.2⟩⟩

/-- Witness for claim C2 at a concrete store with one eligible row. -/
theorem retryQuery_only_eligible_witness :
    cInv ∈ retryQuery cDb ∧
    (cInv.status = some "APPROVED" ∧
     (cInv.webhook_status = some "FAILED" ∨ cInv.webhook_status = some "PENDING") ∧
     (cInv.webhook_attempts = none ∨ ∃ a, cInv.webhook_attempts = some a ∧ a < 10)) :=
  ⟨by decide, retryQuery_only_eligible cDb cInv (by decide)⟩

/-- Claim C3 as stated is false on the code: already in a run where every
effect succeeds, sendWebhook itself changes the persisted invoice state
(the UPDATE queries live inside sendWebhook, server.js lines 140-151). -/
theorem sendWebhook_updates_state_counterexample :
    (sendWebhook (some "http://x") envAllOk cInv cDb).db ≠ cDb := by decide

/-- Claim C3 amended: sendWebhook performs the outbound call and also itself
records the outcome onto the invoice row; when both UPDATE queries are
available it runs the SENT update and returns true after a successful post,
and runs the FAILED update and returns false after a failed one, the caller
only receiving the boolean. -/
theorem sendWebhook_records_outcome (u : String) (env : WebhookEnv)
    (inv : Invoice) (db : List Invoice)
    (hs : env.dbSentOk = true) (hf : env.dbFailedOk = true) :
    (sendWebhook (some u) env inv db).payloadSent = some (buildPayload env inv) ∧
    (sendWebhook (some u) env inv db).db =
      (if env.httpOk then updateSent inv.id db else updateFailed inv.id db) ∧
    (sendWebhook (some u) env inv db).result = SendResult.ok env.httpOk := by
  cases h1 : env.httpOk <;> simp [sendWebhook, h1, hs, hf]

/-- Witness for the amended claim C3 at a concrete invoice and store. -/
theorem sendWebhook_records_outcome_witness :
    envAllOk.dbSentOk = true ∧ envAllOk.dbFailedOk = true ∧
    ((sendWebhook (some "http://x") envAllOk cInv cDb).payloadSent =
        some (buildPayload envAllOk cInv) ∧
     (sendWebhook (some "http://x") envAllOk cInv cDb).db =
       (if envAllOk.httpOk then updateSent cInv.id cDb else updateFailed cInv.id cDb) ∧
     (sendWebhook (some "http://x") envAllOk cInv cDb).result =
        SendResult.ok envAllOk.httpOk) :=
  ⟨rfl, rfl, sendWebhook_records_outcome "http://x" envAllOk cInv cDb rfl rfl⟩

/-- Environment in which the outbound post fails and the failure-recording
UPDATE also fails. -/
def envThrow : WebhookEnv :=
  { resolveArtifact := none, httpOk := false, dbSentOk := true, dbFailedOk := false }

/-- Claim C4 as stated is false on the code: when the outbound post fails and
the failure-recording UPDATE in the catch block itself fails, sendWebhook
rejects instead of returning a result; the approve route guards its call
with a catch handler for exactly this rejection. -/
theorem sendWebhook_can_throw_counterexample :
    (sendWebhook (some "http://x") envThrow cInv cDb).result = SendResult.threw := by
  decide

/-- Claim C4 amended: a failed outbound call (network failure, non-2xx
response or serialization failure of the post) collapses to a returned
false provided the failure-recording UPDATE itself succeeds; only a failure
of that UPDATE lets a rejection reach the caller. -/
theorem failed_post_returns_false (u : String) (env : WebhookEnv)
    (inv : Invoice) (db : List Invoice)
    (hhttp : env.httpOk = false) (hdb : env.dbFailedOk = true) :
    (sendWebhook (some u) env inv db).result = SendResult.ok false := by
  simp [sendWebhook, hhttp, hdb]

/-- Witness for the amended claim C4 at a concrete invoice and store. -/
theorem failed_post_returns_false_witness :
    envHttpFail.httpOk = false ∧ envHttpFail.dbFailedOk = true ∧
    (sendWebhook (some "http://x") envHttpFail cInv cDb).result =
      SendResult.ok false :=
  ⟨rfl, rfl, failed_post_returns_false "http://x" envHttpFail cInv cDb rfl rfl⟩

/-- Claim C5: with no destination URL configured, sendWebhook posts nothing,
changes no persisted field and returns false at once, and a scheduler tick
performs no query and changes nothing. -/
theorem unconfigured_is_noop (env : WebhookEnv) (tenv : String → WebhookEnv)
    (inv : Invoice) (db : List Invoice) :
    sendWebhook none env inv db =
      { payloadSent := none, db := db, result := SendResult.ok false } ∧
    runTick none tenv db = { queried := false, db := db, processed := [] } :=
  ⟨rfl, rfl⟩

/-- Claim C6: the approval update sets status to APPROVED, webhook_status to
PENDING and webhook_attempts to 0, whatever the prior values were. -/
theorem approve_resets_delivery_fields (t : Int) (u : String) (inv : Invoice) :
    (approveUpdate t u inv).status = some "APPROVED" ∧
    (approveUpdate t u inv).webhook_status = some "PENDING" ∧
    (approveUpdate t u inv).webhook_attempts = some 0 :=
  ⟨rfl, rfl, rfl⟩

/-- Claim C7: on a row read at the position of the snapshot handed to
sendWebhook (the call sites only hand over rows that are PENDING or FAILED),
the only webhook_status movements one delivery attempt produces are PENDING
to SENT, PENDING to FAILED, FAILED to SENT and FAILED to FAILED, the row
staying unchanged when no UPDATE went through; the approval update is the
one movement back to PENDING. -/
theorem webhook_status_transitions (u : String) (env : WebhookEnv)
    (inv : Invoice) (db : List Invoice) (i : Nat) (row rowAfter : Invoice)
    (hrow : db[i]? = some row) (hid : row.id = inv.id)
    (hafter : (sendWebhook (some u) env inv db).db[i]? = some rowAfter)
    (hprior : row.webhook_status = some "PENDING" ∨
              row.webhook_status = some "FAILED") :
    ((row.webhook_status = some "PENDING" ∧ rowAfter.webhook_status = some "SENT") ∨
     (row.webhook_status = some "PENDING" ∧ rowAfter.webhook_status = some "FAILED") ∨
     (row.webhook_status = some "FAILED" ∧ rowAfter.webhook_status = some "SENT") ∨
     (row.webhook_status = some "FAILED" ∧ rowAfter.webhook_status = some "FAILED") ∨
     rowAfter = row) ∧
    (∀ t pu inv2, (approveUpdate t pu inv2).webhook_status = some "PENDING") := by
  constructor
  · cases h1 : env.httpOk <;> cases h2 : env.dbSentOk <;> cases h3 : env.dbFailedOk <;>
      simp [sendWebhook, h1, h2, h3,
        updateSent_getElem inv.id db i row hrow hid,
        updateFailed_getElem inv.id db i row hrow hid, hrow] at hafter <;>
      subst hafter <;>
      rcases hprior with hp | hp <;> simp [hp]
  · intro t pu inv2
    rfl

/-- Witness for claim C7 at a concrete invoice and store. -/
theorem webhook_status_transitions_witness :
    cDb[0]? = some cInv ∧ cInv.id = cInv.id ∧
    (sendWebhook (some "http://x") envAllOk cInv cDb).db[0]? =
      some { cInv with webhook_status := some "SENT" } ∧
    (cInv.webhook_status = some "PENDING" ∨ cInv.webhook_status = some "FAILED") ∧
    (((cInv.webhook_status = some "PENDING" ∧
        ({ cInv with webhook_status := some "SENT" } : Invoice).webhook_status = some "SENT") ∨
      (cInv.webhook_status = some "PENDING" ∧
        ({ cInv with webhook_status := some "SENT" } : Invoice).webhook_status = some "FAILED") ∨
      (cInv.webhook_status = some "FAILED" ∧
        ({ cInv with webhook_status := some "SENT" } : Invoice).webhook_status = some "SENT") ∨
      (cInv.webhook_status = some "FAILED" ∧
        ({ cInv with webhook_status := some "SENT" } : Invoice).webhook_status = some "FAILED") ∨
      ({ cInv with webhook_status := some "SENT" } : Invoice) = cInv) ∧
     (∀ t pu inv2, (approveUpdate t pu inv2).webhook_status = some "PENDING")) :=
  ⟨by decide, rfl, by decide, Or.inl rfl,
    webhook_status_transitions "http://x" envAllOk cInv cDb 0 cInv
      { cInv with webhook_status := some "SENT" }
      (by decide) rfl (by decide) (Or.inl rfl)⟩

/-- Sample row with a payload reference attached. -/
def pInv : Invoice := { cInv with pdf_url := some "f.pdf" }

/-- Claim C9: with a payload reference present but unresolvable, delivery
proceeds: the outbound post is still made, its pdf_base64 field is null, and
the attempt is not thereby failed (with the post and the SENT update
succeeding it still returns true). -/
theorem artifact_failure_nonfatal (u r : String) (env : WebhookEnv)
    (inv : Invoice) (db : List Invoice)
    (hpdf : inv.pdf_url = some r) (hr : r ≠ "")
    (hart : env.resolveArtifact = none) :
    (sendWebhook (some u) env inv db).payloadSent = some (buildPayload env inv) ∧
    (buildPayload env inv).pdf_base64 = none ∧
    (env.httpOk = true → env.dbSentOk = true →
      (sendWebhook (some u) env inv db).result = SendResult.ok true) := by
  refine ⟨?_, ?_, ?_⟩
  · cases h1 : env.httpOk <;> cases h2 : env.dbSentOk <;> cases h3 : env.dbFailedOk <;>
      simp [sendWebhook, h1, h2, h3]
  · simp [buildPayload, hpdf, hr, hart]
  · intro h1 h2
    simp [sendWebhook, h1, h2]

/-- Witness for claim C9 at a concrete invoice and store. -/
theorem artifact_failure_nonfatal_witness :
    pInv.pdf_url = some "f.pdf" ∧ "f.pdf" ≠ "" ∧
    envAllOk.resolveArtifact = none ∧
    ((sendWebhook (some "http://x") envAllOk pInv [pInv]).payloadSent =
        some (buildPayload envAllOk pInv) ∧
     (buildPayload envAllOk pInv).pdf_base64 = none ∧
     (envAllOk.httpOk = true → envAllOk.dbSentOk = true →
       (sendWebhook (some "http://x") envAllOk pInv [pInv]).result =
         SendResult.ok true)) :=
  ⟨rfl, by decide, rfl,
    artifact_failure_nonfatal "http://x" "f.pdf" envAllOk pInv [pInv]
      rfl (by decide) rfl⟩

/-- Environment in which the outbound post succeeds but the SENT update
fails, the FAILED update of the catch block succeeding. -/
def envSentFail : WebhookEnv :=
  { resolveArtifact := none, httpOk := true, dbSentOk := false, dbFailedOk := true }

/-- Claim C10: a delivered notification can be recorded as failed: with the
outbound post succeeding and the SENT update failing, the catch block runs
the FAILED update, so the row ends FAILED with the counter incremented and
sendWebhook returns false although the destination received the payload. -/
theorem delivered_but_recorded_failed :
    (sendWebhook (some "http://x") envSentFail cInv cDb).payloadSent =
      some (buildPayload envSentFail cInv) ∧
    envSentFail.httpOk = true ∧
    (sendWebhook (some "http://x") envSentFail cInv cDb).result = SendResult.ok false ∧
    (sendWebhook (some "http://x") envSentFail cInv cDb).db =
      [{ cInv with webhook_status := some "FAILED", webhook_attempts := some 1 }] := by
  decide

/-- A row whose id differs from the snapshot id is unchanged by one
sendWebhook call. -/
theorem sendWebhook_preserves_other_rows (u : String) (env : WebhookEnv)
    (snap : Invoice) (db : List Invoice) (row : Invoice)
    (hmem : row ∈ db) (hid : row.id ≠ snap.id) :
    row ∈ (sendWebhook (some u) env snap db).db := by
  have hsent : row ∈ updateSent snap.id db := by
    have h := List.mem_map_of_mem
      (fun r : Invoice =>
        if r.id = snap.id then { r with webhook_status := some "SENT" } else r) hmem
    simpa [updateSent, hid] using h
  have hfail : row ∈ updateFailed snap.id db := by
    have h := List.mem_map_of_mem
      (fun r : Invoice =>
        if r.id = snap.id then
          { r with webhook_status := some "FAILED",
                   webhook_attempts := some (r.webhook_attempts.getD 0 + 1) }
        else r) hmem
    simpa [updateFailed, hid] using h
  cases h1 : env.httpOk <;> cases h2 : env.dbSentOk <;> cases h3 : env.dbFailedOk <;>
    simp [sendWebhook, h1, h2, h3, hmem, hsent, hfail]

/-- With the failure-recording UPDATE available, sendWebhook cannot
reject. -/
theorem sendWebhook_no_throw (u : String) (env : WebhookEnv) (inv : Invoice)
    (db : List Invoice) (h : env.dbFailedOk = true) :
    (sendWebhook (some u) env inv db).result ≠ SendResult.threw := by
  cases h1 : env.httpOk <;> cases h2 : env.dbSentOk <;>
    simp [sendWebhook, h1, h2, h]

/-- A row whose id is the id of no fetched candidate is unchanged by the
batch loop of one tick. -/
theorem runBatch_preserves_other_rows (u : String) (tenv : String → WebhookEnv)
    (sel : List Invoice) (db : List Invoice) (row : Invoice)
    (hmem : row ∈ db) (hid : ∀ s ∈ sel, row.id ≠ s.id) :
    row ∈ (runBatch u tenv sel db).1 := by
  induction sel generalizing db with
  | nil => exact hmem
  | cons s rest ih =>
    have hmem2 : row ∈ (sendWebhook (some u) (tenv s.id) s db).db :=
      sendWebhook_preserves_other_rows u (tenv s.id) s db row hmem (hid s (by simp))
    cases hres : (sendWebhook (some u) (tenv s.id) s db).result with
    | threw =>
      simpa [runBatch, hres] using hmem2
    | ok b =>
      have hrec := ih ((sendWebhook (some u) (tenv s.id) s db).db) hmem2
        (fun t ht => hid t (by simp [ht]))
      simpa [runBatch, hres] using hrec

/-- When no call of the batch rejects, the loop runs to the end of the
fetched candidates. -/
theorem runBatch_processes_all (u : String) (tenv : String → WebhookEnv)
    (sel : List Invoice) (db : List Invoice)
    (h : ∀ s ∈ sel, (tenv s.id).dbFailedOk = true) :
    (runBatch u tenv sel db).2 = sel := by
  induction sel generalizing db with
  | nil => rfl
  | cons s rest ih =>
    cases hres : (sendWebhook (some u) (tenv s.id) s db).result with
    | threw =>
      exact absurd hres (sendWebhook_no_throw u (tenv s.id) s db (h s (by simp)))
    | ok b =>
      simp [runBatch, hres, ih ((sendWebhook (some u) (tenv s.id) s db).db)
        (fun t ht => h t (by simp [ht]))]

/-- Claim C8: one tick processes at most the capped batch: with exactly 15
eligible rows in the store (ids distinct) and the failure-recording UPDATE
available for each attempt (so no awaited call rejects and aborts the
batch), exactly 10 rows are processed in the tick and the remaining 5
eligible rows are untouched and still eligible candidates for the next
tick. -/
theorem tick_batch_cap (u : String) (tenv : String → WebhookEnv)
    (db : List Invoice)
    (hok : ∀ s : String, (tenv s).dbFailedOk = true)
    (hnodup : (db.map Invoice.id).Nodup)
    (h15 : (db.filter eligible).length = 15) :
    (runTick (some u) tenv db).processed.length = 10 ∧
    ∀ inv ∈ (db.filter eligible).drop 10,
      inv ∈ ((runTick (some u) tenv db).db).filter eligible := by
  constructor
  · have hproc : (runTick (some u) tenv db).processed = retryQuery db :=
      runBatch_processes_all u tenv (retryQuery db) db (fun s _ => hok s.id)
    rw [hproc]
    simp [retryQuery, List.length_take, h15]
  · intro inv hinv
    have hinvL : inv ∈ db.filter eligible := List.mem_of_mem_drop hinv
    have hel : eligible inv = true := (List.mem_filter.mp hinvL).2
    have hinvdb : inv ∈ db := (List.mem_filter.mp hinvL).1
    have hsub : List.Sublist (db.filter eligible) db := List.filter_sublist db
    have hnodupL : ((db.filter eligible).map Invoice.id).Nodup :=
      hnodup.sublist (hsub.map Invoice.id)
    have hsplit : (db.filter eligible).take 10 ++ (db.filter eligible).drop 10 =
        db.filter eligible := List.take_append_drop 10 (db.filter eligible)
    have hnodupApp : (((db.filter eligible).take 10).map Invoice.id ++
        ((db.filter eligible).drop 10).map Invoice.id).Nodup := by
      rw [← List.map_append, hsplit]
      exact hnodupL
    have hdisj : (((db.filter eligible).take 10).map Invoice.id).Disjoint
        (((db.filter eligible).drop 10).map Invoice.id) :=
      (List.nodup_append.mp hnodupApp).2.2
    have hidne : ∀ s ∈ retryQuery db, inv.id ≠ s.id := by
      intro s hs hEq
      have hs2 : s ∈ (db.filter eligible).take 10 := by
        simpa [retryQuery] using hs
      have h1 : inv.id ∈ ((db.filter eligible).take 10).map Invoice.id := by
        rw [hEq]
        exact List.mem_map_of_mem Invoice.id hs2
      have h2 : inv.id ∈ ((db.filter eligible).drop 10).map Invoice.id :=
        List.mem_map_of_mem Invoice.id hinv
      exact hdisj h1 h2
    have hmem2 : inv ∈ (runTick (some u) tenv db).db :=
      runBatch_preserves_other_rows u tenv (retryQuery db) db inv hinvdb hidne
    exact List.mem_filter.mpr ⟨hmem2, hel⟩

/-- Sample store of 15 distinct eligible rows. -/
def wDb : List Invoice :=
  (List.range 15).map fun n =>
    { id := toString n, phonenumber := "9", dealer := "d", total := 0,
      status := some "APPROVED", pdf_url := none,
      webhook_status := some "FAILED", webhook_attempts := some 1 }

/-- Witness for claim C8 at a concrete store of 15 eligible rows. -/
theorem tick_batch_cap_witness :
    envAllOk.dbFailedOk = true ∧
    (wDb.map Invoice.id).Nodup ∧
    (wDb.filter eligible).length = 15 ∧
    ((runTick (some "http://x") (fun _ => envAllOk) wDb).processed.length = 10 ∧
     ∀ inv ∈ (wDb.filter eligible).drop 10,
       inv ∈ ((runTick (some "http://x") (fun _ => envAllOk) wDb).db).filter eligible) :=
  ⟨rfl, by decide, by decide,
    tick_batch_cap "http://x" (fun _ => envAllOk) wDb (fun _ => rfl)
      (by decide) (by decide)⟩

end InvoicePipeline
